import Mathlib

/-!
Verification of the gphoto camera session layer (src/src/camera.rs).

The Rust source is shallowly embedded: native status codes are `Int`,
native buffers are `List UInt8`, heap payloads handed out by the native
layer are tagged with allocation ids so that frees can be counted, and
each fallible operation is a total Lean function returning an explicit
outcome (including a marker for undefined behaviour where the source
dereferences an unchecked pointer).
-/

namespace Gphoto

/-! ## Native status codes (gphoto2-port-result.h constants used by camera.rs) -/

def GP_OK : Int := 0

def GP_ERROR : Int := -1

def GP_ERROR_NOT_SUPPORTED : Int := -6

def GP_ERROR_CORRUPTED_DATA : Int := -102

/-- Domain error kinds, per the spec's Error Translator taxonomy. -/
inductive ErrorKind where
  | NotSupported
  | CorruptedData
  | DeviceError
  | Unknown
deriving DecidableEq, Repr

/-- Modelled from the spec: the Error Translator lives in error.rs, which is
not under src/; camera.rs only calls it.  Per the spec it maps every native
status code totally onto a domain kind: `GP_ERROR_NOT_SUPPORTED` to
`NotSupported`, `GP_ERROR_CORRUPTED_DATA` to `CorruptedData`, device and
transport failures to `DeviceError`, and unrecognized codes to `Unknown`. -/
def from_libgphoto2 (code : Int) : ErrorKind :=
  if code = GP_ERROR_NOT_SUPPORTED then ErrorKind.NotSupported
  else if code = GP_ERROR_CORRUPTED_DATA then ErrorKind.CorruptedData
  else if GP_ERROR_CORRUPTED_DATA < code ∧ code < GP_OK then ErrorKind.DeviceError
  else ErrorKind.Unknown

/-! ## Device file paths and files -/

/-- `gphoto2::CameraFilePath`: two fixed-capacity C text fields, modelled as
byte lists (the capacity bound is immaterial to the verified claims). -/
structure CameraFilePath where
  folder : List UInt8
  name : List UInt8
deriving DecidableEq, Repr

/-- `CameraFile { inner: CameraFilePath }` from camera.rs: an owned copy of a
path naming a file on the camera's storage. -/
structure CameraFile where
  inner : CameraFilePath
deriving DecidableEq, Repr

/-! ## The wait_for_file event loop

`Camera::wait_for_file` repeatedly calls `gp_camera_wait_for_event`, which
on success yields an event type together with a raw `data` pointer (possibly
null).  We script the native layer as a list of steps: each step is either a
delivered event or a failing status.  A non-null payload carries an
allocation id (so frees can be counted) and the bytes behind the pointer
interpreted as a `CameraFilePath` (what the FILE_ADDED branch reads). -/

/-- `gphoto2::CameraEventType`. -/
inductive CameraEventType where
  | GP_EVENT_UNKNOWN
  | GP_EVENT_TIMEOUT
  | GP_EVENT_FILE_ADDED
  | GP_EVENT_FOLDER_ADDED
  | GP_EVENT_CAPTURE_COMPLETE
  | GP_EVENT_FILE_CHANGED
deriving DecidableEq, Repr

/-- The raw `data` out-pointer of `gp_camera_wait_for_event`: either null or
a heap allocation (id for free-counting, plus its contents read as a
`CameraFilePath` when dereferenced). -/
inductive EventData where
  | null
  | alloc (id : Nat) (path : CameraFilePath)
deriving DecidableEq, Repr

structure NativeEvent where
  etype : CameraEventType
  data : EventData
deriving DecidableEq, Repr

/-- One native `gp_camera_wait_for_event` response: a delivered event, or a
failing status code (in which case no event and no payload are produced). -/
inductive NativeStep where
  | ev (e : NativeEvent)
  | fail (code : Int)
deriving DecidableEq, Repr

/-- Outcome of `wait_for_file`.  `nullDeref` marks the undefined behaviour of
the FILE_ADDED branch dereferencing a null `data` pointer; `streamEnded` is a
model artifact for scripts that run out before a terminal event. -/
inductive WaitResult where
  | file (f : CameraFile)
  | noFile
  | err (e : ErrorKind)
  | nullDeref
  | streamEnded
deriving DecidableEq, Repr

/-- Observable trace of one `wait_for_file` call: its result, the allocation
ids passed to `free` (`free` on a null pointer frees nothing and is omitted,
matching the source's `if !data.is_null()` guards and C's `free(NULL)`
no-op), and the timeout argument handed to each native wait call. -/
structure WaitTrace where
  result : WaitResult
  frees : List Nat
  budgets : List Nat
deriving DecidableEq, Repr

/-- Allocation ids released by `free(data)` for a given payload pointer. -/
def freedOf : EventData → List Nat
  | EventData.null => []
  | EventData.alloc id _ => [id]

/-- `Camera::wait_for_file` (camera.rs lines 64-90).  Each loop iteration
issues the native wait with the unchanged `timeout` argument, then matches on
the event type: FILE_ADDED clones `*data` (no null check) and frees `data`,
returning the copied file; TIMEOUT frees a non-null `data` and returns no
file; every other event frees a non-null `data` and loops. -/
def wait_for_file (timeout : Nat) : List NativeStep → WaitTrace
  | [] => ⟨WaitResult.streamEnded, [], []⟩
  | NativeStep.fail code :: _ =>
      ⟨WaitResult.err (from_libgphoto2 code), [], [timeout]⟩
  | NativeStep.ev e :: rest =>
      match e.etype with
      | CameraEventType.GP_EVENT_FILE_ADDED =>
          match e.data with
          | EventData.alloc id path =>
              ⟨WaitResult.file ⟨path⟩, [id], [timeout]⟩
          | EventData.null =>
              ⟨WaitResult.nullDeref, [], [timeout]⟩
      | CameraEventType.GP_EVENT_TIMEOUT =>
          ⟨WaitResult.noFile, freedOf e.data, [timeout]⟩
      | _ =>
          let t := wait_for_file timeout rest
          ⟨t.result, freedOf e.data ++ t.frees, timeout :: t.budgets⟩

/-- A step on which the loop terminates: a native failure (error return) or a
FILE_ADDED / TIMEOUT event. -/
def isTerminal : NativeStep → Bool
  | NativeStep.fail _ => true
  | NativeStep.ev e =>
      match e.etype with
      | CameraEventType.GP_EVENT_FILE_ADDED => true
      | CameraEventType.GP_EVENT_TIMEOUT => true
      | _ => false

/-- A delivered event that the loop treats as noise (the `_` match arm). -/
def isOther : NativeStep → Bool
  | NativeStep.fail _ => false
  | NativeStep.ev e =>
      match e.etype with
      | CameraEventType.GP_EVENT_FILE_ADDED => false
      | CameraEventType.GP_EVENT_TIMEOUT => false
      | _ => true

/-- Allocation ids delivered by one native step (none on a failing call). -/
def deliveredAllocs : NativeStep → List Nat
  | NativeStep.fail _ => []
  | NativeStep.ev e => freedOf e.data

/-- Allocation ids of payloads delivered during the processed prefix of a
script: everything up to and including the first terminal step. -/
def processedAllocs : List NativeStep → List Nat
  | [] => []
  | s :: rest =>
      deliveredAllocs s ++ (if isTerminal s then [] else processedAllocs rest)

/-- Number of native wait calls issued while processing a script. -/
def numCalls : List NativeStep → Nat
  | [] => 0
  | s :: rest => 1 + (if isTerminal s then 0 else numCalls rest)

/-- Definition following the claim's words, for comparison with the code:
"the wait budget passed to the native call decreases by the time already
consumed in prior iterations".  Given the original timeout and the wall time
each native call consumed, the budget of call `i` would be the timeout minus
the total time consumed by calls before `i`. -/
def claimedBudgets (timeout : Nat) : List Nat → List Nat
  | [] => []
  | consumed :: rest => timeout :: claimedBudgets (timeout - consumed) rest

/-! ## Session construction and teardown

`Camera::autodetect` (camera.rs lines 31-41) is the two-phase open:
`gp_camera_new` allocates the native handle; on success a `Camera` value is
built around it and `gp_camera_init` runs.  Both calls go through the
`try_unsafe!` status check, which returns early with the translated error on
a non-`GP_OK` status.  The early return after a failed init drops the
already-built `Camera`, and `impl Drop for Camera` (lines 21-27) calls
`gp_camera_unref` on the handle — that drop is the only release site.  We
model each native call by its status and count `gp_camera_unref` calls. -/

structure Camera where
  camera : Nat
deriving DecidableEq, Repr

/-- `impl Drop for Camera`: one `gp_camera_unref` on the stored handle. -/
def Camera.dropUnrefs (_ : Camera) : Nat := 1

/-- `Camera::autodetect`, parametrized by the statuses the two native calls
return and the handle `gp_camera_new` would store on success.  Result: the
constructed camera or the translated error, paired with the number of
`gp_camera_unref` calls performed during construction (the drop of the local
`Camera` on the early-return path after a failed init). -/
def autodetect (sNew sInit : Int) (handle : Nat) :
    Except ErrorKind Camera × Nat :=
  if sNew ≠ GP_OK then
    (Except.error (from_libgphoto2 sNew), 0)
  else
    let camera : Camera := ⟨handle⟩
    if sInit ≠ GP_OK then
      (Except.error (from_libgphoto2 sInit), camera.dropUnrefs)
    else
      (Except.ok camera, 0)

/-- Handles allocated by `gp_camera_new`: one on success, none on failure. -/
def newAllocs (sNew : Int) : Nat := if sNew = GP_OK then 1 else 0

/-- Total `gp_camera_unref` calls over the session's whole lifetime: those
performed during construction, plus the eventual drop when construction
succeeded and the session later goes out of scope. -/
def lifetimeUnrefs (sNew sInit : Int) (handle : Nat) : Nat :=
  match autodetect sNew sInit handle with
  | (Except.ok c, n) => n + c.dropUnrefs
  | (Except.error _, n) => n

/-! ## Storage query

`Camera::storage` (camera.rs lines 131-146): `gp_camera_get_storageinfo`
fills a pointer and an element count; on a non-`GP_OK` status the translated
error is returned.  On success the allocation is re-owned wholesale with
`Vec::from_raw_parts(ptr, len, len)` — no copy, no null check, length and
capacity both set to the reported count.  We model the native allocation as
the list of entries it holds (its reported `len` is that list's length), so
`Vec::from_raw_parts` is the identity on it. -/

/-- Modelled from the spec: the storage descriptor type lives in storage.rs,
which is not under src/; the spec calls it a plain descriptive value object
with no behaviour, so it is opaque here. -/
structure Storage where
  raw : Nat
deriving DecidableEq, Repr

def Camera.storage (status : Int) (native : List Storage) :
    Except ErrorKind (List Storage) :=
  if status ≠ GP_OK then Except.error (from_libgphoto2 status)
  else Except.ok native

/-! ## Port and abilities queries

`Camera::port` (camera.rs lines 107-115) and `Camera::abilities` (lines
118-126) do not return a `Result`: each wraps its native call in
`assert_eq!(GP_OK, ...)`, so a non-`GP_OK` status is a panic (assertion
failure), never a recoverable error.  The outcome type below has a
`recoverable` constructor precisely so that we can state the two functions
never produce it. -/

inductive QueryOutcome (α : Type) where
  | ok (v : α)
  | panicked
  | recoverable (e : ErrorKind)
deriving DecidableEq, Repr

/-- Modelled from the spec: port metadata lives in port.rs (not under src/);
a plain copyable record, opaque here. -/
structure PortInfo where
  raw : Nat
deriving DecidableEq, Repr

/-- Modelled from the spec: abilities metadata lives in abilities.rs (not
under src/); a plain copyable record, opaque here. -/
structure AbilitiesInfo where
  raw : Nat
deriving DecidableEq, Repr

/-- `Camera::port`, parametrized by the native status and the port info the
native call would produce. -/
def Camera.port (status : Int) (info : PortInfo) : QueryOutcome PortInfo :=
  if status = GP_OK then QueryOutcome.ok info else QueryOutcome.panicked

/-- `Camera::abilities`, parametrized likewise. -/
def Camera.abilities (status : Int) (a : AbilitiesInfo) :
    QueryOutcome AbilitiesInfo :=
  if status = GP_OK then QueryOutcome.ok a else QueryOutcome.panicked

/-! ## UTF-8 validation and lossy decoding

camera.rs relies on two Rust standard-library conversions:
`String::from_utf8` (strict, used by `util::camera_text_to_string`) and
`String::from_utf8_lossy` (used by `CameraFile::directory` / `basename`).
Both follow the UTF-8 well-formedness table (RFC 3629): the lossy variant
replaces each maximal subpart of an ill-formed sequence with U+FFFD, whose
UTF-8 encoding is the three bytes EF BF BD.

`utf8Step` consumes one scalar-value sequence from the front of the input:
it returns the bytes consumed on success, the remainder at which decoding
continues, and whether the sequence was well-formed.  On failure the
remainder starts right after the maximal subpart, per the replacement
policy Rust implements. -/

/-- Consume the trailing bytes of one multi-byte sequence.  `reqs` is the
list of (lower, upper) bounds the remaining trailing bytes must satisfy,
`acc` the bytes consumed so far.  On success: (consumed, remainder, true).
On a byte out of range: `([], offending byte :: rest, false)` — decoding
resumes at the offending byte, which is Rust's maximal-subpart replacement
policy.  On truncated input: `([], [], false)`. -/
def takeTrail (acc : List UInt8) :
    List (UInt8 × UInt8) → List UInt8 → List UInt8 × List UInt8 × Bool
  | [], rest => (acc, rest, true)
  | _ :: _, [] => ([], [], false)
  | (lo, hi) :: reqs, c :: rest =>
      if lo ≤ c && c ≤ hi then takeTrail (acc ++ [c]) reqs rest
      else ([], c :: rest, false)

/-- Trailing-byte range table of UTF-8 well-formedness, indexed by the lead
byte (RFC 3629, as implemented by Rust's `core::str` validation); `none`
for an invalid lead byte. -/
def trailReqs (b : UInt8) : Option (List (UInt8 × UInt8)) :=
  if b ≤ 0x7F then some []
  else if 0xC2 ≤ b && b ≤ 0xDF then some [(0x80, 0xBF)]
  else if b == 0xE0 then some [(0xA0, 0xBF), (0x80, 0xBF)]
  else if (0xE1 ≤ b && b ≤ 0xEC) || b == 0xEE || b == 0xEF then
    some [(0x80, 0xBF), (0x80, 0xBF)]
  else if b == 0xED then some [(0x80, 0x9F), (0x80, 0xBF)]
  else if b == 0xF0 then some [(0x90, 0xBF), (0x80, 0xBF), (0x80, 0xBF)]
  else if 0xF1 ≤ b && b ≤ 0xF3 then
    some [(0x80, 0xBF), (0x80, 0xBF), (0x80, 0xBF)]
  else if b == 0xF4 then some [(0x80, 0x8F), (0x80, 0xBF), (0x80, 0xBF)]
  else none

/-- Decode one scalar-value sequence from lead byte `b` and remaining bytes
`rest`: (consumed bytes, remainder, well-formed?). -/
def utf8Step (b : UInt8) (rest : List UInt8) :
    List UInt8 × List UInt8 × Bool :=
  match trailReqs b with
  | none => ([], rest, false)
  | some reqs => takeTrail [b] reqs rest

theorem takeTrail_rest_le (acc : List UInt8)
    (reqs : List (UInt8 × UInt8)) (rest : List UInt8) :
    (takeTrail acc reqs rest).2.1.length ≤ rest.length := by
  induction reqs generalizing acc rest with
  | nil => simp [takeTrail]
  | cons q reqs ih =>
      obtain ⟨lo, hi⟩ := q
      cases rest with
      | nil => simp [takeTrail]
      | cons c rest =>
          simp only [takeTrail]
          split
          · exact le_trans (ih _ _) (Nat.le_succ _)
          · simp

theorem utf8Step_rest_le (b : UInt8) (rest : List UInt8) :
    (utf8Step b rest).2.1.length ≤ rest.length := by
  unfold utf8Step
  rcases hr : trailReqs b with _ | reqs
  · exact Nat.le_refl _
  · exact takeTrail_rest_le _ _ _

theorem takeTrail_valid_append (acc : List UInt8)
    (reqs : List (UInt8 × UInt8)) (rest : List UInt8)
    (h : (takeTrail acc reqs rest).2.2 = true) :
    (takeTrail acc reqs rest).1 ++ (takeTrail acc reqs rest).2.1 =
      acc ++ rest := by
  induction reqs generalizing acc rest with
  | nil => simp [takeTrail]
  | cons q reqs ih =>
      obtain ⟨lo, hi⟩ := q
      cases rest with
      | nil => exact Bool.noConfusion h
      | cons c rest =>
          by_cases hc : (lo ≤ c && c ≤ hi) = true
          · simp only [takeTrail, if_pos hc] at h ⊢
            rw [ih _ _ h]
            simp
          · simp [takeTrail, hc] at h

theorem utf8Step_valid_append (b : UInt8) (rest : List UInt8)
    (h : (utf8Step b rest).2.2 = true) :
    (utf8Step b rest).1 ++ (utf8Step b rest).2.1 = b :: rest := by
  unfold utf8Step at h ⊢
  rcases hr : trailReqs b with _ | reqs
  · rw [hr] at h
    exact Bool.noConfusion h
  · rw [hr] at h
    exact takeTrail_valid_append _ _ _ h

/-- Rust's `String::from_utf8` validity check, driven by a fuel counter so
that the recursion is structural (one unit of fuel per consumed sequence;
any fuel at least the input length gives the same answer, see
`validUtf8Fuel_congr`). -/
def validUtf8Fuel : Nat → List UInt8 → Bool
  | _, [] => true
  | 0, _ :: _ => false
  | fuel + 1, b :: rest =>
      (utf8Step b rest).2.2 && validUtf8Fuel fuel (utf8Step b rest).2.1

/-- Rust's `String::from_utf8` validity check (`str::from_utf8` success). -/
def validUtf8 (bs : List UInt8) : Bool := validUtf8Fuel bs.length bs

/-- UTF-8 encoding of U+FFFD, the replacement emitted by
`String::from_utf8_lossy` for each maximal ill-formed subpart. -/
def replBytes : List UInt8 := [0xEF, 0xBF, 0xBD]

/-- Fuel-driven core of `String::from_utf8_lossy`. -/
def lossyUtf8Fuel : Nat → List UInt8 → List UInt8
  | _, [] => []
  | 0, _ :: _ => []
  | fuel + 1, b :: rest =>
      (if (utf8Step b rest).2.2 then (utf8Step b rest).1 else replBytes) ++
        lossyUtf8Fuel fuel (utf8Step b rest).2.1

/-- Rust's `String::from_utf8_lossy`, as the byte sequence of the resulting
string: well-formed sequences are kept, each maximal ill-formed subpart is
replaced by U+FFFD. -/
def lossyUtf8 (bs : List UInt8) : List UInt8 := lossyUtf8Fuel bs.length bs

theorem validUtf8Fuel_congr :
    ∀ (n m : Nat) (bs : List UInt8), bs.length ≤ n → bs.length ≤ m →
      validUtf8Fuel n bs = validUtf8Fuel m bs := by
  intro n
  induction n with
  | zero =>
      intro m bs h1 _
      have hbs : bs = [] := List.length_eq_zero.mp (Nat.le_zero.mp h1)
      cases hbs
      cases m <;> rfl
  | succ n ih =>
      intro m bs h1 h2
      cases bs with
      | nil => cases m <;> rfl
      | cons b rest =>
          cases m with
          | zero => simp at h2
          | succ m =>
              simp only [validUtf8Fuel]
              congr 1
              have hle := utf8Step_rest_le b rest
              simp only [List.length_cons] at h1 h2
              exact ih m _ (by omega) (by omega)

theorem lossyUtf8Fuel_congr :
    ∀ (n m : Nat) (bs : List UInt8), bs.length ≤ n → bs.length ≤ m →
      lossyUtf8Fuel n bs = lossyUtf8Fuel m bs := by
  intro n
  induction n with
  | zero =>
      intro m bs h1 _
      have hbs : bs = [] := List.length_eq_zero.mp (Nat.le_zero.mp h1)
      cases hbs
      cases m <;> rfl
  | succ n ih =>
      intro m bs h1 h2
      cases bs with
      | nil => cases m <;> rfl
      | cons b rest =>
          cases m with
          | zero => simp at h2
          | succ m =>
              simp only [lossyUtf8Fuel]
              congr 1
              have hle := utf8Step_rest_le b rest
              simp only [List.length_cons] at h1 h2
              exact ih m _ (by omega) (by omega)

/-! ## Text ownership transfer

`util::camera_text_to_string` (camera.rs lines 236-248): given a
`gphoto2::CameraText` (one fixed-capacity inline `text` array already filled
by a native call), it computes `length` as `CStr::from_ptr(..).to_bytes()
.len()` — the number of bytes before the first NUL — then re-owns the
storage as `Vec::<u8>::from_raw_parts(ptr, length, capacity)` (the vector
sees exactly the first `length` bytes) and runs `String::from_utf8` on it.
A failed validation is mapped to the translated `GP_ERROR_CORRUPTED_DATA`
error, with the `FromUtf8Error` (still holding the bytes) dropped. -/

structure CameraText where
  text : List UInt8
deriving DecidableEq, Repr

/-- `CStr::from_ptr(p).to_bytes()`: the bytes before the first NUL. -/
def cstrBytes (bs : List UInt8) : List UInt8 :=
  bs.takeWhile (fun b => b != 0)

/-- `String::from_utf8`: the same bytes on success (a Rust `String` is its
UTF-8 byte buffer), the `FromUtf8Error` carrying them on failure. -/
def from_utf8 (v : List UInt8) : Except (List UInt8) (List UInt8) :=
  if validUtf8 v then Except.ok v else Except.error v

def camera_text_to_string (ct : CameraText) : Except ErrorKind (List UInt8) :=
  let length := (cstrBytes ct.text).length
  let vec := ct.text.take length
  match from_utf8 vec with
  | Except.ok s => Except.ok s
  | Except.error _ => Except.error (from_libgphoto2 GP_ERROR_CORRUPTED_DATA)

/-- Ownership bookkeeping for `camera_text_to_string`: how many times the
buffer's storage is re-owned (`Vec::from_raw_parts` runs exactly once,
before validation) and how many times that storage is destroyed (once: by
the `String`'s eventual drop on success, or by dropping the discarded
`FromUtf8Error` inside `map_err` on failure). -/
structure TextTrace where
  result : Except ErrorKind (List UInt8)
  reowned : Nat
  destroyed : Nat
deriving Repr

def camera_text_to_string_tr (ct : CameraText) : TextTrace :=
  let vec := ct.text.take (cstrBytes ct.text).length
  match from_utf8 vec with
  | Except.ok s => ⟨Except.ok s, 1, 1⟩
  | Except.error _ =>
      ⟨Except.error (from_libgphoto2 GP_ERROR_CORRUPTED_DATA), 1, 1⟩

/-! ## CameraFile accessors

`CameraFile::directory` and `CameraFile::basename` (camera.rs lines
213-224) read the stored path fields with `CStr::from_ptr(..).to_bytes()`
and decode them with `String::from_utf8_lossy` — total functions returning
a string (as a `Cow<str>`) for every input; they have no error path. -/

def CameraFile.directory (cf : CameraFile) : List UInt8 :=
  lossyUtf8 (cstrBytes cf.inner.folder)

def CameraFile.basename (cf : CameraFile) : List UInt8 :=
  lossyUtf8 (cstrBytes cf.inner.name)

/-! ## Supporting lemmas -/

theorem validUtf8_nil : validUtf8 [] = true := rfl

theorem validUtf8_cons (b : UInt8) (rest : List UInt8) :
    validUtf8 (b :: rest) =
      ((utf8Step b rest).2.2 && validUtf8 (utf8Step b rest).2.1) := by
  show validUtf8Fuel (b :: rest).length (b :: rest) = _
  simp only [List.length_cons, validUtf8Fuel]
  congr 1
  exact validUtf8Fuel_congr rest.length (utf8Step b rest).2.1.length _
    (utf8Step_rest_le b rest) (Nat.le_refl _)

theorem lossyUtf8_nil : lossyUtf8 [] = [] := rfl

theorem lossyUtf8_cons (b : UInt8) (rest : List UInt8) :
    lossyUtf8 (b :: rest) =
      (if (utf8Step b rest).2.2 then (utf8Step b rest).1 else replBytes) ++
        lossyUtf8 (utf8Step b rest).2.1 := by
  show lossyUtf8Fuel (b :: rest).length (b :: rest) = _
  simp only [List.length_cons, lossyUtf8Fuel]
  congr 1
  exact lossyUtf8Fuel_congr rest.length (utf8Step b rest).2.1.length _
    (utf8Step_rest_le b rest) (Nat.le_refl _)

theorem lossyUtf8_of_valid_aux :
    ∀ (n : Nat) (bs : List UInt8), bs.length ≤ n →
      validUtf8 bs = true → lossyUtf8 bs = bs := by
  intro n
  induction n with
  | zero =>
      intro bs hlen _
      have hbs : bs = [] := List.length_eq_zero.mp (Nat.le_zero.mp hlen)
      rw [hbs, lossyUtf8_nil]
  | succ n ih =>
      intro bs hlen hv
      cases bs with
      | nil => rw [lossyUtf8_nil]
      | cons b rest =>
          rw [validUtf8_cons, Bool.and_eq_true] at hv
          obtain ⟨h1, h2⟩ := hv
          have hle := utf8Step_rest_le b rest
          have hlen2 : (utf8Step b rest).2.1.length ≤ n := by
            simp only [List.length_cons] at hlen
            omega
          rw [lossyUtf8_cons, if_pos h1, ih _ hlen2 h2]
          exact utf8Step_valid_append b rest h1

/-- `String::from_utf8_lossy` on well-formed input is the identity. -/
theorem lossyUtf8_of_valid (bs : List UInt8) (h : validUtf8 bs = true) :
    lossyUtf8 bs = bs :=
  lossyUtf8_of_valid_aux bs.length bs (Nat.le_refl _) h

theorem lossyUtf8_invalid_aux :
    ∀ (n : Nat) (bs : List UInt8), bs.length ≤ n →
      validUtf8 bs = false →
      ∃ l r, lossyUtf8 bs = l ++ replBytes ++ r := by
  intro n
  induction n with
  | zero =>
      intro bs hlen hv
      have hbs : bs = [] := List.length_eq_zero.mp (Nat.le_zero.mp hlen)
      rw [hbs, validUtf8_nil] at hv
      exact Bool.noConfusion hv
  | succ n ih =>
      intro bs hlen hv
      cases bs with
      | nil =>
          rw [validUtf8_nil] at hv
          exact Bool.noConfusion hv
      | cons b rest =>
          rw [validUtf8_cons] at hv
          rw [lossyUtf8_cons]
          by_cases h1 : (utf8Step b rest).2.2 = true
          · have h2 : validUtf8 (utf8Step b rest).2.1 = false := by
              rw [h1, Bool.true_and] at hv
              exact hv
            have hle := utf8Step_rest_le b rest
            have hlen2 : (utf8Step b rest).2.1.length ≤ n := by
              simp only [List.length_cons] at hlen
              omega
            obtain ⟨l, r, hlr⟩ := ih _ hlen2 h2
            refine ⟨(utf8Step b rest).1 ++ l, r, ?_⟩
            rw [if_pos h1, hlr]
            simp [List.append_assoc]
          · refine ⟨[], lossyUtf8 (utf8Step b rest).2.1, ?_⟩
            rw [if_neg h1]
            simp

/-- `String::from_utf8_lossy` on ill-formed input inserts the U+FFFD
replacement somewhere in its output. -/
theorem lossyUtf8_invalid (bs : List UInt8) (h : validUtf8 bs = false) :
    ∃ l r, lossyUtf8 bs = l ++ replBytes ++ r :=
  lossyUtf8_invalid_aux bs.length bs (Nat.le_refl _) h

/-- Taking strlen-many bytes of a buffer is exactly its NUL-free head. -/
theorem take_length_cstr (bs : List UInt8) :
    bs.take (cstrBytes bs).length = cstrBytes bs := by
  induction bs with
  | nil => rfl
  | cons b rest ih =>
      by_cases hb : (b != 0) = true
      · simp only [cstrBytes, List.takeWhile_cons, hb, if_true,
          List.length_cons, List.take_succ_cons]
        rw [show rest.takeWhile (fun b => b != 0) = cstrBytes rest from rfl,
          ih]
      · simp only [cstrBytes, List.takeWhile_cons, hb, if_false]
        rfl

/-- `camera_text_to_string` validates exactly the NUL-free head. -/
theorem camera_text_to_string_eq (ct : CameraText) :
    camera_text_to_string ct =
      (if validUtf8 (cstrBytes ct.text) then Except.ok (cstrBytes ct.text)
       else Except.error (from_libgphoto2 GP_ERROR_CORRUPTED_DATA)) := by
  by_cases hv : validUtf8 (cstrBytes ct.text) = true
  · simp [camera_text_to_string, from_utf8, take_length_cstr, hv]
  · simp [camera_text_to_string, from_utf8, take_length_cstr, hv]

/-- All allocation ids the native layer hands out over a whole script. -/
def allAllocs : List NativeStep → List Nat
  | [] => []
  | s :: rest => deliveredAllocs s ++ allAllocs rest

theorem wait_frees_eq (timeout : Nat) (steps : List NativeStep) :
    (wait_for_file timeout steps).frees = processedAllocs steps := by
  induction steps with
  | nil => rfl
  | cons s rest ih =>
      cases s with
      | fail code => rfl
      | ev e =>
          obtain ⟨etype, data⟩ := e
          cases etype with
          | GP_EVENT_FILE_ADDED =>
              cases data with
              | null => rfl
              | alloc id path => rfl
          | GP_EVENT_TIMEOUT =>
              simp [wait_for_file, processedAllocs, deliveredAllocs,
                isTerminal]
          | GP_EVENT_UNKNOWN =>
              simp [wait_for_file, processedAllocs, deliveredAllocs,
                isTerminal, ih]
          | GP_EVENT_FOLDER_ADDED =>
              simp [wait_for_file, processedAllocs, deliveredAllocs,
                isTerminal, ih]
          | GP_EVENT_CAPTURE_COMPLETE =>
              simp [wait_for_file, processedAllocs, deliveredAllocs,
                isTerminal, ih]
          | GP_EVENT_FILE_CHANGED =>
              simp [wait_for_file, processedAllocs, deliveredAllocs,
                isTerminal, ih]

theorem processedAllocs_sublist (steps : List NativeStep) :
    List.Sublist (processedAllocs steps) (allAllocs steps) := by
  induction steps with
  | nil => exact List.Sublist.refl _
  | cons s rest ih =>
      simp only [processedAllocs, allAllocs]
      by_cases ht : isTerminal s = true
      · rw [if_pos ht]
        exact (List.nil_sublist _).append_left _
      · rw [if_neg ht]
        exact ih.append_left _

/-- Spurious events are skipped: the result on a script starting with noise
events is the result on the script that remains. -/
theorem wait_result_append (timeout : Nat) (others rest : List NativeStep)
    (h : ∀ s ∈ others, isOther s = true) :
    (wait_for_file timeout (others ++ rest)).result =
      (wait_for_file timeout rest).result := by
  induction others with
  | nil => rfl
  | cons s others ih =>
      have hs := h s (List.mem_cons_self _ _)
      have hothers : ∀ x ∈ others, isOther x = true := fun x hx =>
        h x (List.mem_cons_of_mem _ hx)
      cases s with
      | fail code => exact Bool.noConfusion hs
      | ev e =>
          obtain ⟨etype, data⟩ := e
          cases etype with
          | GP_EVENT_FILE_ADDED => exact Bool.noConfusion hs
          | GP_EVENT_TIMEOUT => exact Bool.noConfusion hs
          | GP_EVENT_UNKNOWN =>
              simp [wait_for_file, ih hothers]
          | GP_EVENT_FOLDER_ADDED =>
              simp [wait_for_file, ih hothers]
          | GP_EVENT_CAPTURE_COMPLETE =>
              simp [wait_for_file, ih hothers]
          | GP_EVENT_FILE_CHANGED =>
              simp [wait_for_file, ih hothers]

theorem camera_text_to_string_invalid (ct : CameraText)
    (h : validUtf8 (cstrBytes ct.text) = false) :
    camera_text_to_string ct = Except.error ErrorKind.CorruptedData := by
  rw [camera_text_to_string_eq, if_neg (by simp [h]),
    show from_libgphoto2 GP_ERROR_CORRUPTED_DATA = ErrorKind.CorruptedData
      from by decide]

theorem camera_text_to_string_tr_once (ct : CameraText) :
    (camera_text_to_string_tr ct).reowned = 1 ∧
      (camera_text_to_string_tr ct).destroyed = 1 := by
  rcases hfu : from_utf8 (ct.text.take (cstrBytes ct.text).length)
    with v | v <;>
    simp [camera_text_to_string_tr, hfu]

theorem isTerminal_eq_false_of_isOther (s : NativeStep)
    (h : isOther s = true) : isTerminal s = false := by
  cases s with
  | fail code => exact Bool.noConfusion h
  | ev e =>
      obtain ⟨etype, data⟩ := e
      cases etype <;> simp_all [isOther, isTerminal]

theorem mem_processedAllocs_append (others : List NativeStep)
    (h : ∀ s ∈ others, isOther s = true) (t : NativeStep) (id : Nat)
    (hid : id ∈ deliveredAllocs t) :
    id ∈ processedAllocs (others ++ [t]) := by
  induction others with
  | nil =>
      simp only [List.nil_append, processedAllocs]
      exact List.mem_append_left _ hid
  | cons s others ih =>
      have hs := h s (List.mem_cons_self _ _)
      have hothers : ∀ x ∈ others, isOther x = true := fun x hx =>
        h x (List.mem_cons_of_mem _ hx)
      simp only [List.cons_append, processedAllocs,
        isTerminal_eq_false_of_isOther s hs, Bool.false_eq_true, if_false]
      exact List.mem_append_right _ (ih hothers)

/-! ## Claim theorems -/

/-- C1: In `wait_for_file`, for every event delivered by the native wait
call, the event's heap payload is released exactly once before the loop
proceeds or returns, on every classification branch (file-added, timeout,
and "other"), including when the payload pointer is null for that event
kind (in which case there is nothing to release and nothing is freed); no
payload is leaked and none is freed twice: assuming the native layer hands
out distinct allocations, the ids passed to `free` are exactly the ids
delivered during the processed events, each freed exactly once. -/
theorem wait_for_file_releases_each_payload_once (timeout : Nat)
    (steps : List NativeStep) (h : (allAllocs steps).Nodup) :
    (wait_for_file timeout steps).frees = processedAllocs steps
    ∧ (wait_for_file timeout steps).frees.Nodup
    ∧ ∀ id ∈ processedAllocs steps,
        (wait_for_file timeout steps).frees.count id = 1 := by
  have hfr := wait_frees_eq timeout steps
  have hnd : (processedAllocs steps).Nodup :=
    List.Nodup.sublist (processedAllocs_sublist steps) h
  refine ⟨hfr, hfr ▸ hnd, ?_⟩
  intro id hid
  rw [hfr]
  exact List.count_eq_one_of_mem hnd hid

theorem wait_for_file_releases_each_payload_once_witness :
    (allAllocs
        [NativeStep.ev ⟨CameraEventType.GP_EVENT_UNKNOWN,
          EventData.alloc 1 ⟨[], []⟩⟩,
         NativeStep.ev ⟨CameraEventType.GP_EVENT_TIMEOUT,
          EventData.alloc 2 ⟨[], []⟩⟩]).Nodup
    ∧ ((wait_for_file 50
        [NativeStep.ev ⟨CameraEventType.GP_EVENT_UNKNOWN,
          EventData.alloc 1 ⟨[], []⟩⟩,
         NativeStep.ev ⟨CameraEventType.GP_EVENT_TIMEOUT,
          EventData.alloc 2 ⟨[], []⟩⟩]).frees =
        processedAllocs
        [NativeStep.ev ⟨CameraEventType.GP_EVENT_UNKNOWN,
          EventData.alloc 1 ⟨[], []⟩⟩,
         NativeStep.ev ⟨CameraEventType.GP_EVENT_TIMEOUT,
          EventData.alloc 2 ⟨[], []⟩⟩]
      ∧ (wait_for_file 50
        [NativeStep.ev ⟨CameraEventType.GP_EVENT_UNKNOWN,
          EventData.alloc 1 ⟨[], []⟩⟩,
         NativeStep.ev ⟨CameraEventType.GP_EVENT_TIMEOUT,
          EventData.alloc 2 ⟨[], []⟩⟩]).frees.Nodup
      ∧ ∀ id ∈ processedAllocs
        [NativeStep.ev ⟨CameraEventType.GP_EVENT_UNKNOWN,
          EventData.alloc 1 ⟨[], []⟩⟩,
         NativeStep.ev ⟨CameraEventType.GP_EVENT_TIMEOUT,
          EventData.alloc 2 ⟨[], []⟩⟩],
          (wait_for_file 50
        [NativeStep.ev ⟨CameraEventType.GP_EVENT_UNKNOWN,
          EventData.alloc 1 ⟨[], []⟩⟩,
         NativeStep.ev ⟨CameraEventType.GP_EVENT_TIMEOUT,
          EventData.alloc 2 ⟨[], []⟩⟩]).frees.count id = 1) :=
  ⟨by decide, wait_for_file_releases_each_payload_once 50 _ (by decide)⟩

/-- C2: For every sequence consisting of zero or more "other" events
followed by one file-added event (with its payload) or one timeout event,
`wait_for_file` returns exactly one result matching the terminal event — the
copied device file for file-added, no file (and no error) for timeout — and
a run of "other" events alone never terminates the loop. -/
theorem wait_for_file_matches_terminal_event (timeout : Nat)
    (others : List NativeStep) (h : ∀ s ∈ others, isOther s = true)
    (id : Nat) (p : CameraFilePath) (d : EventData) :
    (wait_for_file timeout (others ++
        [NativeStep.ev ⟨CameraEventType.GP_EVENT_FILE_ADDED,
          EventData.alloc id p⟩])).result = WaitResult.file ⟨p⟩
    ∧ (wait_for_file timeout (others ++
        [NativeStep.ev ⟨CameraEventType.GP_EVENT_TIMEOUT, d⟩])).result =
        WaitResult.noFile
    ∧ (wait_for_file timeout others).result = WaitResult.streamEnded := by
  refine ⟨?_, ?_, ?_⟩
  · rw [wait_result_append timeout others _ h]
    rfl
  · rw [wait_result_append timeout others _ h]
    rfl
  · have hskip := wait_result_append timeout others [] h
    rw [List.append_nil] at hskip
    rw [hskip]
    rfl

theorem wait_for_file_matches_terminal_event_witness :
    (∀ s ∈ [NativeStep.ev ⟨CameraEventType.GP_EVENT_FOLDER_ADDED,
        EventData.null⟩], isOther s = true)
    ∧ (wait_for_file 100
        ([NativeStep.ev ⟨CameraEventType.GP_EVENT_FOLDER_ADDED,
            EventData.null⟩] ++
          [NativeStep.ev ⟨CameraEventType.GP_EVENT_FILE_ADDED,
            EventData.alloc 3 ⟨[47], [65]⟩⟩])).result =
        WaitResult.file ⟨⟨[47], [65]⟩⟩
    ∧ (wait_for_file 100
        ([NativeStep.ev ⟨CameraEventType.GP_EVENT_FOLDER_ADDED,
            EventData.null⟩] ++
          [NativeStep.ev ⟨CameraEventType.GP_EVENT_TIMEOUT,
            EventData.null⟩])).result = WaitResult.noFile
    ∧ (wait_for_file 100
        [NativeStep.ev ⟨CameraEventType.GP_EVENT_FOLDER_ADDED,
          EventData.null⟩]).result = WaitResult.streamEnded :=
  ⟨by decide,
    wait_for_file_matches_terminal_event 100 _ (by decide) 3 ⟨[47], [65]⟩
      EventData.null⟩

/-- C3: In the two-phase allocate-then-init open sequence of
`Camera::autodetect`, if `gp_camera_init` fails after `gp_camera_new`
succeeded, the handle is still released (the early return drops the local
`Camera`, whose `Drop` calls `gp_camera_unref`); across all outcomes the
number of `gp_camera_unref` calls over the session's lifetime equals the
number of handles `gp_camera_new` allocated — exactly once per allocation,
never a leak. -/
theorem autodetect_releases_handle_exactly_once (sNew sInit : Int)
    (handle : Nat) :
    lifetimeUnrefs sNew sInit handle = newAllocs sNew
    ∧ (sNew = GP_OK → sInit ≠ GP_OK →
        (autodetect sNew sInit handle).2 = 1) := by
  constructor
  · by_cases h1 : sNew = GP_OK
    · by_cases h2 : sInit = GP_OK
      · simp [lifetimeUnrefs, autodetect, newAllocs, Camera.dropUnrefs,
          h1, h2]
      · simp [lifetimeUnrefs, autodetect, newAllocs, Camera.dropUnrefs,
          h1, h2]
    · simp [lifetimeUnrefs, autodetect, newAllocs, h1]
  · intro h1 h2
    simp [autodetect, Camera.dropUnrefs, h1, h2]

theorem autodetect_releases_handle_exactly_once_witness :
    (lifetimeUnrefs GP_OK GP_ERROR 0 = newAllocs GP_OK)
    ∧ (autodetect GP_OK GP_ERROR 0).2 = 1 :=
  ⟨(autodetect_releases_handle_exactly_once GP_OK GP_ERROR 0).1,
    (autodetect_releases_handle_exactly_once GP_OK GP_ERROR 0).2 rfl
      (by decide)⟩

/-- C4 (counterexample): the claim says each native wait call is issued with
the remaining budget — the original timeout minus the time consumed by prior
iterations.  On a run where the first call consumed 300 ms of a 1000 ms
budget before delivering an "other" event, the claim requires the second
call to be issued with 700; the code issues both calls with the unchanged
1000 (`timeout as c_int` on every iteration). -/
theorem wait_for_file_budget_counterexample :
    (wait_for_file 1000
        [NativeStep.ev ⟨CameraEventType.GP_EVENT_UNKNOWN,
          EventData.alloc 7 ⟨[], []⟩⟩,
         NativeStep.ev ⟨CameraEventType.GP_EVENT_TIMEOUT,
          EventData.null⟩]).budgets = [1000, 1000]
    ∧ claimedBudgets 1000 [300, 0] = [1000, 700]
    ∧ (wait_for_file 1000
        [NativeStep.ev ⟨CameraEventType.GP_EVENT_UNKNOWN,
          EventData.alloc 7 ⟨[], []⟩⟩,
         NativeStep.ev ⟨CameraEventType.GP_EVENT_TIMEOUT,
          EventData.null⟩]).budgets ≠ claimedBudgets 1000 [300, 0] := by
  refine ⟨by decide, by decide, by decide⟩

/-- C4 (amended): on every iteration of the `wait_for_file` loop, the
next-event request is issued with the full original timeout — the wait
budget passed to the native call does not decrease across iterations; each
iteration resets its own budget. -/
theorem wait_for_file_budget_constant (timeout : Nat)
    (steps : List NativeStep) :
    (wait_for_file timeout steps).budgets =
      List.replicate (numCalls steps) timeout := by
  induction steps with
  | nil => rfl
  | cons s rest ih =>
      cases s with
      | fail code => rfl
      | ev e =>
          obtain ⟨etype, data⟩ := e
          cases etype with
          | GP_EVENT_FILE_ADDED =>
              cases data with
              | null => rfl
              | alloc id path => rfl
          | GP_EVENT_TIMEOUT => rfl
          | GP_EVENT_UNKNOWN =>
              simp [wait_for_file, numCalls, isTerminal, ih,
                Nat.add_comm, List.replicate_succ]
          | GP_EVENT_FOLDER_ADDED =>
              simp [wait_for_file, numCalls, isTerminal, ih,
                Nat.add_comm, List.replicate_succ]
          | GP_EVENT_CAPTURE_COMPLETE =>
              simp [wait_for_file, numCalls, isTerminal, ih,
                Nat.add_comm, List.replicate_succ]
          | GP_EVENT_FILE_CHANGED =>
              simp [wait_for_file, numCalls, isTerminal, ih,
                Nat.add_comm, List.replicate_succ]

/-- C5: For every native text buffer containing a terminator whose head is
valid UTF-8, the string produced by `camera_text_to_string` has length equal
to the buffer's used length up to and excluding the first terminator byte,
and the transfer never reads or includes bytes beyond that length: the
result is determined by the NUL-free head alone. -/
theorem camera_text_to_string_length_eq_strlen (ct : CameraText)
    (_h0 : (0 : UInt8) ∈ ct.text) :
    (∀ s, camera_text_to_string ct = Except.ok s →
        s.length = (cstrBytes ct.text).length)
    ∧ (∀ ct2 : CameraText, cstrBytes ct2.text = cstrBytes ct.text →
        camera_text_to_string ct2 = camera_text_to_string ct) := by
  constructor
  · intro s hs
    rw [camera_text_to_string_eq] at hs
    by_cases hv : validUtf8 (cstrBytes ct.text) = true
    · rw [if_pos hv] at hs
      simp only [Except.ok.injEq] at hs
      rw [← hs]
    · rw [if_neg hv] at hs
      exact absurd hs (by simp)
  · intro ct2 h2
    rw [camera_text_to_string_eq, camera_text_to_string_eq, h2]

theorem camera_text_to_string_length_eq_strlen_witness :
    ((0 : UInt8) ∈ ([104, 105, 0, 200] : List UInt8))
    ∧ ((∀ s, camera_text_to_string ⟨[104, 105, 0, 200]⟩ = Except.ok s →
          s.length = (cstrBytes [104, 105, 0, 200]).length)
      ∧ (∀ ct2 : CameraText,
          cstrBytes ct2.text = cstrBytes [104, 105, 0, 200] →
          camera_text_to_string ct2 =
            camera_text_to_string ⟨[104, 105, 0, 200]⟩)) :=
  ⟨by decide,
    camera_text_to_string_length_eq_strlen ⟨[104, 105, 0, 200]⟩ (by decide)⟩

/-- C6: `camera_text_to_string` on a buffer whose NUL-free head is invalid
UTF-8 yields the `CorruptedData` error and no string; and on every input —
success or failure — the re-owned byte storage is consumed and destroyed
exactly once (re-owned once by `Vec::from_raw_parts`, destroyed once by the
resulting `String` or by the dropped `FromUtf8Error`). -/
theorem camera_text_to_string_corrupted (ct : CameraText)
    (h : validUtf8 (cstrBytes ct.text) = false) :
    camera_text_to_string ct = Except.error ErrorKind.CorruptedData
    ∧ (camera_text_to_string_tr ct).reowned = 1
    ∧ (camera_text_to_string_tr ct).destroyed = 1
    ∧ ∀ ct2 : CameraText, (camera_text_to_string_tr ct2).reowned = 1
        ∧ (camera_text_to_string_tr ct2).destroyed = 1 :=
  ⟨camera_text_to_string_invalid ct h,
    (camera_text_to_string_tr_once ct).1,
    (camera_text_to_string_tr_once ct).2,
    fun ct2 => camera_text_to_string_tr_once ct2⟩

theorem camera_text_to_string_corrupted_witness :
    validUtf8 (cstrBytes [255, 0]) = false
    ∧ (camera_text_to_string ⟨[255, 0]⟩ =
        Except.error ErrorKind.CorruptedData
      ∧ (camera_text_to_string_tr ⟨[255, 0]⟩).reowned = 1
      ∧ (camera_text_to_string_tr ⟨[255, 0]⟩).destroyed = 1
      ∧ ∀ ct2 : CameraText, (camera_text_to_string_tr ct2).reowned = 1
          ∧ (camera_text_to_string_tr ct2).destroyed = 1) :=
  ⟨by decide, camera_text_to_string_corrupted ⟨[255, 0]⟩ (by decide)⟩

/-- C7: For every successful storage query, the returned list is the native
allocation re-owned as-is, so its length equals the element count the
native call reported; a native allocation of length 0 yields the empty
list, not an error and not a fault; a failing status yields the translated
error. -/
theorem storage_preserves_native_length (s : Int) (es : List Storage) :
    (s = GP_OK → Camera.storage s es = Except.ok es)
    ∧ (∀ r, Camera.storage s es = Except.ok r → r.length = es.length)
    ∧ Camera.storage GP_OK ([] : List Storage) = Except.ok []
    ∧ (s ≠ GP_OK → Camera.storage s es = Except.error (from_libgphoto2 s)) := by
  refine ⟨?_, ?_, by simp [Camera.storage], ?_⟩
  · intro h
    simp [Camera.storage, h]
  · intro r hr
    unfold Camera.storage at hr
    split at hr
    · exact absurd hr (by simp)
    · simp only [Except.ok.injEq] at hr
      rw [← hr]
  · intro h
    simp [Camera.storage, h]

theorem storage_preserves_native_length_witness :
    (Camera.storage GP_OK [⟨5⟩] = Except.ok [⟨5⟩])
    ∧ Camera.storage GP_ERROR ([] : List Storage) =
        Except.error (from_libgphoto2 GP_ERROR) :=
  ⟨(storage_preserves_native_length GP_OK [⟨5⟩]).1 rfl,
    (storage_preserves_native_length GP_ERROR []).2.2.2 (by decide)⟩

/-- C8: The abilities and port-info queries never return a recoverable
error: when the native call succeeds they return the copied metadata, and a
native failure is an assertion failure (panic) — a programming-error-level
fatal condition, never a `DeviceError` or any other recoverable error. -/
theorem port_abilities_assert_native_success (s : Int) (info : PortInfo)
    (a : AbilitiesInfo) :
    (s = GP_OK → Camera.port s info = QueryOutcome.ok info
      ∧ Camera.abilities s a = QueryOutcome.ok a)
    ∧ (s ≠ GP_OK → Camera.port s info = QueryOutcome.panicked
      ∧ Camera.abilities s a = QueryOutcome.panicked)
    ∧ (∀ e, Camera.port s info ≠ QueryOutcome.recoverable e)
    ∧ (∀ e, Camera.abilities s a ≠ QueryOutcome.recoverable e) := by
  refine ⟨fun h => ⟨by simp [Camera.port, h], by simp [Camera.abilities, h]⟩,
    fun h => ⟨by simp [Camera.port, h], by simp [Camera.abilities, h]⟩,
    ?_, ?_⟩
  · intro e
    unfold Camera.port
    split <;> simp
  · intro e
    unfold Camera.abilities
    split <;> simp

theorem port_abilities_assert_native_success_witness :
    (Camera.port GP_OK ⟨1⟩ = QueryOutcome.ok ⟨1⟩
      ∧ Camera.abilities GP_OK ⟨2⟩ = QueryOutcome.ok ⟨2⟩)
    ∧ (Camera.port GP_ERROR ⟨1⟩ = QueryOutcome.panicked
      ∧ Camera.abilities GP_ERROR ⟨2⟩ = QueryOutcome.panicked) :=
  ⟨(port_abilities_assert_native_success GP_OK ⟨1⟩ ⟨2⟩).1 rfl,
    (port_abilities_assert_native_success GP_ERROR ⟨1⟩ ⟨2⟩).2.1
      (by decide)⟩

/-- C9: The `CameraFile` accessors for directory and base name are total —
in this embedding they are total functions with no error outcome, matching
the source's non-`Result` return type — and when the stored path bytes up to
the terminator are not valid UTF-8 they are decoded lossily (the U+FFFD
replacement appears in the output) rather than reported as `CorruptedData`,
unlike `camera_text_to_string`, which fails with `CorruptedData` on the
same bytes; on valid UTF-8 they return the bytes unchanged. -/
theorem directory_basename_total_lossy (cf : CameraFile) :
    (validUtf8 (cstrBytes cf.inner.folder) = true →
        cf.directory = cstrBytes cf.inner.folder)
    ∧ (validUtf8 (cstrBytes cf.inner.folder) = false →
        (∃ l r, cf.directory = l ++ replBytes ++ r)
        ∧ camera_text_to_string ⟨cf.inner.folder⟩ =
            Except.error ErrorKind.CorruptedData)
    ∧ (validUtf8 (cstrBytes cf.inner.name) = true →
        cf.basename = cstrBytes cf.inner.name)
    ∧ (validUtf8 (cstrBytes cf.inner.name) = false →
        (∃ l r, cf.basename = l ++ replBytes ++ r)
        ∧ camera_text_to_string ⟨cf.inner.name⟩ =
            Except.error ErrorKind.CorruptedData) := by
  refine ⟨fun h => lossyUtf8_of_valid _ h,
    fun h => ⟨lossyUtf8_invalid _ h, camera_text_to_string_invalid _ h⟩,
    fun h => lossyUtf8_of_valid _ h,
    fun h => ⟨lossyUtf8_invalid _ h, camera_text_to_string_invalid _ h⟩⟩

theorem directory_basename_total_lossy_witness :
    validUtf8 (cstrBytes (CameraFile.mk ⟨[192, 0], [128, 0]⟩).inner.folder)
        = false
    ∧ validUtf8 (cstrBytes (CameraFile.mk ⟨[192, 0], [128, 0]⟩).inner.name)
        = false
    ∧ ((∃ l r, (CameraFile.mk ⟨[192, 0], [128, 0]⟩).directory =
          l ++ replBytes ++ r)
      ∧ camera_text_to_string
          ⟨(CameraFile.mk ⟨[192, 0], [128, 0]⟩).inner.folder⟩ =
          Except.error ErrorKind.CorruptedData)
    ∧ ((∃ l r, (CameraFile.mk ⟨[192, 0], [128, 0]⟩).basename =
          l ++ replBytes ++ r)
      ∧ camera_text_to_string
          ⟨(CameraFile.mk ⟨[192, 0], [128, 0]⟩).inner.name⟩ =
          Except.error ErrorKind.CorruptedData) :=
  ⟨by decide, by decide,
    (directory_basename_total_lossy (CameraFile.mk ⟨[192, 0], [128, 0]⟩)).2.1
      (by decide),
    (directory_basename_total_lossy
      (CameraFile.mk ⟨[192, 0], [128, 0]⟩)).2.2.2 (by decide)⟩

/-- C10: On the file-added branch of `wait_for_file`, the payload pointer is
dereferenced and copied without a null check (a null payload there is the
undefined-behaviour outcome, unlike the timeout and "other" branches, which
guard their frees and handle null without incident); under the precondition
that the file-added event carries a non-null payload, the returned file is
an independent copy of the payload's contents, and the payload allocation
itself is among those freed before the call returns. -/
theorem wait_for_file_fileAdded_unchecked_deref (timeout : Nat)
    (others : List NativeStep) (h : ∀ s ∈ others, isOther s = true)
    (id : Nat) (p : CameraFilePath) :
    (wait_for_file timeout (others ++
        [NativeStep.ev ⟨CameraEventType.GP_EVENT_FILE_ADDED,
          EventData.null⟩])).result = WaitResult.nullDeref
    ∧ (wait_for_file timeout (others ++
        [NativeStep.ev ⟨CameraEventType.GP_EVENT_FILE_ADDED,
          EventData.alloc id p⟩])).result = WaitResult.file ⟨p⟩
    ∧ id ∈ (wait_for_file timeout (others ++
        [NativeStep.ev ⟨CameraEventType.GP_EVENT_FILE_ADDED,
          EventData.alloc id p⟩])).frees
    ∧ (wait_for_file timeout (others ++
        [NativeStep.ev ⟨CameraEventType.GP_EVENT_TIMEOUT,
          EventData.null⟩])).result = WaitResult.noFile := by
  refine ⟨?_, ?_, ?_, ?_⟩
  · rw [wait_result_append timeout others _ h]
    rfl
  · rw [wait_result_append timeout others _ h]
    rfl
  · rw [wait_frees_eq]
    exact mem_processedAllocs_append others h _ id (by simp [deliveredAllocs, freedOf])
  · rw [wait_result_append timeout others _ h]
    rfl

theorem wait_for_file_fileAdded_unchecked_deref_witness :
    (∀ s ∈ [NativeStep.ev ⟨CameraEventType.GP_EVENT_CAPTURE_COMPLETE,
        EventData.alloc 4 ⟨[], []⟩⟩], isOther s = true)
    ∧ (wait_for_file 10
        ([NativeStep.ev ⟨CameraEventType.GP_EVENT_CAPTURE_COMPLETE,
            EventData.alloc 4 ⟨[], []⟩⟩] ++
          [NativeStep.ev ⟨CameraEventType.GP_EVENT_FILE_ADDED,
            EventData.null⟩])).result = WaitResult.nullDeref
    ∧ (wait_for_file 10
        ([NativeStep.ev ⟨CameraEventType.GP_EVENT_CAPTURE_COMPLETE,
            EventData.alloc 4 ⟨[], []⟩⟩] ++
          [NativeStep.ev ⟨CameraEventType.GP_EVENT_FILE_ADDED,
            EventData.alloc 9 ⟨[100], [110]⟩⟩])).result =
        WaitResult.file ⟨⟨[100], [110]⟩⟩
    ∧ 9 ∈ (wait_for_file 10
        ([NativeStep.ev ⟨CameraEventType.GP_EVENT_CAPTURE_COMPLETE,
            EventData.alloc 4 ⟨[], []⟩⟩] ++
          [NativeStep.ev ⟨CameraEventType.GP_EVENT_FILE_ADDED,
            EventData.alloc 9 ⟨[100], [110]⟩⟩])).frees
    ∧ (wait_for_file 10
        ([NativeStep.ev ⟨CameraEventType.GP_EVENT_CAPTURE_COMPLETE,
            EventData.alloc 4 ⟨[], []⟩⟩] ++
          [NativeStep.ev ⟨CameraEventType.GP_EVENT_TIMEOUT,
            EventData.null⟩])).result = WaitResult.noFile :=
  ⟨by decide,
    wait_for_file_fileAdded_unchecked_deref 10 _ (by decide) 9
      ⟨[100], [110]⟩⟩

end Gphoto
